import Mathlib

/-!
# Land-suitability analysis: shallow embedding

A shallow embedding of the core of the `land_analysis` repository: the
per-criterion threshold classifiers (land cover, slope, HAND), the
suitability aggregator with its pluggable rounding strategy, the cache
validator, the geometry gate (border clip, protected-area subtraction,
minimum-viable-area check) and the no-data encoding of the emitted raster.

The repository's application sources are not shipped here (only its
Dockerfiles, compose file, README and the plotting notebook are); every
definition below is therefore modelled from the specification's words and
the README's documented thresholds and policies.
-/

namespace LandAnalysis

/-- Modelled from the spec: the ordinal suitability band, an enumerated
value with Low = 1, Medium = 2, High = 3. -/
inductive SuitabilityBand where
  | low
  | medium
  | high
  deriving DecidableEq, Repr

/-- Modelled from the spec: the numeric code of a suitability band
(Low = 1, Medium = 2, High = 3). -/
def SuitabilityBand.val : SuitabilityBand → ℤ
  | .low => 1
  | .medium => 2
  | .high => 3

/-- Modelled from the spec: the land-cover categories of the source
land-cover product; the analysis recognises Rangeland, Bare ground and
Crops and discards the rest. -/
inductive CoverCategory where
  | rangeland
  | bareGround
  | crops
  | forest
  | floodedVegetation
  | builtArea
  | snowIce
  | clouds
  | water
  deriving DecidableEq, Repr

/-- Modelled from the spec: a classified raster cell is a suitability band
or no-data; a raster is a grid of such cells indexed by pixel position. -/
def Raster (α : Type) : Type :=
  ℕ × ℕ → Option α

namespace CriterionClassifier

/-- Modelled from the spec: the single parameterized numeric band
classifier behind the slope and HAND criteria — non-overlapping half-open
intervals in ascending band order: `[t1,t2)` High, `[t2,t3)` Medium,
anything else Low. -/
def bandClassify (t1 t2 t3 v : ℚ) : SuitabilityBand :=
  if t1 ≤ v ∧ v < t2 then .high
  else if t2 ≤ v ∧ v < t3 then .medium
  else .low

/-- Modelled from the spec: the slope criterion (percent) —
[1,3) High, [3,5) Medium, else Low. -/
def classifySlope (v : ℚ) : SuitabilityBand :=
  bandClassify 1 3 5 v

/-- Modelled from the spec: the HAND criterion (meters) —
[1,30) High, [30,50) Medium, else Low. -/
def classifyHand (v : ℚ) : SuitabilityBand :=
  bandClassify 1 30 50 v

/-- Modelled from the spec: the land-cover criterion — Crops map to Low,
Rangeland and Bare ground to High, every other category and a no-data
input to no-data (unclassifiable cells never default to Low). -/
def classifyCover : Option CoverCategory → Option SuitabilityBand
  | some .crops => some .low
  | some .rangeland => some .high
  | some .bareGround => some .high
  | _ => none

end CriterionClassifier

/-- Modelled from the spec: the selectable rounding strategies
{floor, ceiling, round}. -/
inductive RoundingStrategy where
  | floor
  | ceiling
  | round
  deriving DecidableEq, Repr

/-- Modelled from the spec: the default rounding strategy is floor
(`np.floor` in the README). -/
def defaultRounding : RoundingStrategy :=
  .floor

/-- Modelled from the spec: apply a rounding strategy to a rational mean;
`round` is round-half-up (`⌊q + 1/2⌋`). -/
def applyRounding : RoundingStrategy → ℚ → ℤ
  | .floor, q => ⌊q⌋
  | .ceiling, q => ⌈q⌉
  | .round, q => ⌊q + 1 / 2⌋

/-- Modelled from the spec: clamp a rounded integer back into the valid
band range {1,2,3} (numeric edge effects only). -/
def clampBand (z : ℤ) : SuitabilityBand :=
  if z ≤ 1 then .low
  else if 3 ≤ z then .high
  else .medium

namespace SuitabilityAggregator

/-- Modelled from the spec: per-cell aggregation — no-data if any of the
three inputs is no-data, otherwise the rounding strategy applied to the
arithmetic mean of the three band values, clamped to {1,2,3}. -/
def aggregateCell (a b c : Option SuitabilityBand) (fn : RoundingStrategy) :
    Option SuitabilityBand :=
  match a, b, c with
  | some x, some y, some z =>
      some (clampBand (applyRounding fn (((x.val + y.val + z.val : ℤ) : ℚ) / 3)))
  | _, _, _ => none

/-- Modelled from the spec: `aggregate(cover, slope, hand, rounding_fn)`
combines the three aligned classified rasters pixel-wise. -/
def aggregate (cover slope hand : Raster SuitabilityBand)
    (fn : RoundingStrategy) : Raster SuitabilityBand :=
  fun p => aggregateCell (cover p) (slope p) (hand p) fn

end SuitabilityAggregator

/-- Modelled from the spec: geometries (AOIs, borders, protected areas and
cached extents) are modelled as finite sets of unit grid cells; geometric
containment is set inclusion, intersection and difference are the set
operations. -/
abbrev Geometry : Type :=
  Finset (ℤ × ℤ)

namespace CacheValidator

/-- Modelled from the spec: `needs_fetch(requested_aoi, cache_record)` —
false (skip the fetch) iff the cache record exists and its stored extent
geometrically contains the whole requested AOI. -/
def needs_fetch (requested_aoi : Geometry) (cache_record : Option Geometry) :
    Bool :=
  match cache_record with
  | none => true
  | some extent => !(decide (requested_aoi ⊆ extent))

end CacheValidator

namespace GeometryGate

/-- Modelled from the spec: step 1 of `reduce` — intersect the AOI with
the union of the administrative borders. -/
def clipToBorders (aoi borders : Geometry) : Geometry :=
  aoi ∩ borders

/-- Modelled from the spec: step 2 of `reduce` — subtract the union of the
protected areas from the border-clipped AOI. -/
def subtractProtected (g protectedAreas : Geometry) : Geometry :=
  g \ protectedAreas

end GeometryGate

/-- Modelled from the spec: area in hectares of a geometry, each grid cell
contributing `cellAreaHa` hectares (area computed in an area-preserving
projection, abstracted to a fixed per-cell area). -/
def areaHa (cellAreaHa : ℚ) (g : Geometry) : ℚ :=
  (g.card : ℚ) * cellAreaHa

/-- Modelled from the spec: the statistics gathered by the pipeline before
the minimum-area gate — areas before/after each reduction step and the
explicit shortfall field. -/
structure StatisticsReport where
  aoiAreaHa : ℚ
  areaAfterBorderClipHa : ℚ
  remainingAreaHa : ℚ
  shortfallHa : ℚ
  deriving DecidableEq, Repr

/-- Modelled from the spec: the pipeline's distinguishable outcomes —
Success carries the suitability raster and the statistics, InsufficientArea
is a graceful stop that carries only the statistics (no raster). -/
inductive PipelineOutcome where
  | success (raster : Raster SuitabilityBand) (stats : StatisticsReport)
  | insufficientArea (stats : StatisticsReport)

/-- Modelled from the spec: the statistics record computed by the pipeline
for given inputs. -/
def pipelineStats (aoi borders protectedAreas : Geometry)
    (minAreaHa cellAreaHa : ℚ) : StatisticsReport :=
  let clipped := GeometryGate.clipToBorders aoi borders
  let remaining := GeometryGate.subtractProtected clipped protectedAreas
  { aoiAreaHa := areaHa cellAreaHa aoi
    areaAfterBorderClipHa := areaHa cellAreaHa clipped
    remainingAreaHa := areaHa cellAreaHa remaining
    shortfallHa := max 0 (minAreaHa - areaHa cellAreaHa remaining) }

/-- Modelled from the spec: the pipeline orchestrator — clip by borders,
subtract protected areas, and if the remaining area is below `minAreaHa`
(default 100 Ha) stop gracefully with the statistics and no raster; else
aggregate the three classified rasters. -/
def runPipeline (aoi borders protectedAreas : Geometry)
    (minAreaHa cellAreaHa : ℚ)
    (cover slope hand : Raster SuitabilityBand)
    (fn : RoundingStrategy) : PipelineOutcome :=
  let clipped := GeometryGate.clipToBorders aoi borders
  let remaining := GeometryGate.subtractProtected clipped protectedAreas
  let stats := pipelineStats aoi borders protectedAreas minAreaHa cellAreaHa
  if areaHa cellAreaHa remaining < minAreaHa then
    .insufficientArea stats
  else
    .success (SuitabilityAggregator.aggregate cover slope hand fn) stats

/-- Modelled from the spec: the encoding of a suitability cell in the
emitted `classified_land.tif` — the no-data sentinel is -9999 (the value
the plotting notebook masks), a valid cell is its band value {1,2,3}. -/
def encodeSuitability : Option SuitabilityBand → ℤ
  | none => -9999
  | some b => b.val

/-! ## Theorems -/

/-- The parameterized band classifier realizes non-overlapping half-open
intervals: High exactly on `[t1,t2)`, Medium exactly on `[t2,t3)`, Low
exactly elsewhere. -/
theorem CriterionClassifier.bandClassify_spec (t1 t2 t3 v : ℚ)
    (h12 : t1 ≤ t2) (h23 : t2 ≤ t3) :
    (CriterionClassifier.bandClassify t1 t2 t3 v = .high ↔ t1 ≤ v ∧ v < t2) ∧
    (CriterionClassifier.bandClassify t1 t2 t3 v = .medium ↔ t2 ≤ v ∧ v < t3) ∧
    (CriterionClassifier.bandClassify t1 t2 t3 v = .low ↔ v < t1 ∨ t3 ≤ v) := by
  unfold CriterionClassifier.bandClassify
  split_ifs with h1 h2
  · obtain ⟨ha, hb⟩ := h1
    refine ⟨⟨fun _ => ⟨ha, hb⟩, fun _ => rfl⟩,
      ⟨fun h => (nomatch h), fun hc => ?_⟩,
      ⟨fun h => (nomatch h), fun hc => ?_⟩⟩
    · exact absurd hb (not_lt.mpr hc.1)
    · rcases hc with hc | hc
      · exact absurd ha (not_le.mpr hc)
      · exact absurd hb (not_lt.mpr (le_trans h23 hc))
  · obtain ⟨ha, hb⟩ := h2
    refine ⟨⟨fun h => (nomatch h), fun hc => ?_⟩,
      ⟨fun _ => ⟨ha, hb⟩, fun _ => rfl⟩,
      ⟨fun h => (nomatch h), fun hc => ?_⟩⟩
    · exact absurd ha (not_le.mpr hc.2)
    · rcases hc with hc | hc
      · exact absurd (le_trans h12 ha) (not_le.mpr hc)
      · exact absurd hb (not_lt.mpr hc)
  · push_neg at h1 h2
    refine ⟨⟨fun h => (nomatch h), fun hc => ?_⟩,
      ⟨fun h => (nomatch h), fun hc => ?_⟩,
      ⟨fun _ => ?_, fun _ => rfl⟩⟩
    · exact absurd hc.2 (not_lt.mpr (h1 hc.1))
    · exact absurd hc.2 (not_lt.mpr (h2 hc.1))
    · by_cases ha : t1 ≤ v
      · exact Or.inr (h2 (h1 ha))
      · exact Or.inl (not_le.mp ha)

/-- C1: the slope classifier assigns bands by non-overlapping half-open
intervals in ascending band order — `[1,3)` is High, `[3,5)` is Medium,
every other value is Low; at the exact boundaries, 1 maps to High, 3 to
Medium and 5 to Low. -/
theorem slope_classifier_halfopen_bands (v : ℚ) :
    (CriterionClassifier.classifySlope v = .high ↔ 1 ≤ v ∧ v < 3) ∧
    (CriterionClassifier.classifySlope v = .medium ↔ 3 ≤ v ∧ v < 5) ∧
    (CriterionClassifier.classifySlope v = .low ↔ v < 1 ∨ 5 ≤ v) ∧
    CriterionClassifier.classifySlope 1 = .high ∧
    CriterionClassifier.classifySlope 3 = .medium ∧
    CriterionClassifier.classifySlope 5 = .low := by
  have h := CriterionClassifier.bandClassify_spec 1 3 5 v
    (by norm_num) (by norm_num)
  refine ⟨h.1, h.2.1, h.2.2, ?_, ?_, ?_⟩ <;> decide

/-- C7: the HAND classifier assigns High on `[1,30)`, Medium on `[30,50)`
and Low elsewhere; at the exact boundaries, 1 maps to High, 30 to Medium
and 50 to Low. -/
theorem hand_classifier_halfopen_bands (v : ℚ) :
    (CriterionClassifier.classifyHand v = .high ↔ 1 ≤ v ∧ v < 30) ∧
    (CriterionClassifier.classifyHand v = .medium ↔ 30 ≤ v ∧ v < 50) ∧
    (CriterionClassifier.classifyHand v = .low ↔ v < 1 ∨ 50 ≤ v) ∧
    CriterionClassifier.classifyHand 1 = .high ∧
    CriterionClassifier.classifyHand 30 = .medium ∧
    CriterionClassifier.classifyHand 50 = .low := by
  have h := CriterionClassifier.bandClassify_spec 1 30 50 v
    (by norm_num) (by norm_num)
  refine ⟨h.1, h.2.1, h.2.2, ?_, ?_, ?_⟩ <;> decide

/-- C8: the land-cover classifier maps Crops to Low, Rangeland and Bare
ground to High, every other category to no-data, and a no-data input to
no-data; no unclassifiable cell is ever assigned Low. -/
theorem cover_classifier_categories :
    CriterionClassifier.classifyCover (some .crops) = some .low ∧
    CriterionClassifier.classifyCover (some .rangeland) = some .high ∧
    CriterionClassifier.classifyCover (some .bareGround) = some .high ∧
    CriterionClassifier.classifyCover (some .forest) = none ∧
    CriterionClassifier.classifyCover (some .floodedVegetation) = none ∧
    CriterionClassifier.classifyCover (some .builtArea) = none ∧
    CriterionClassifier.classifyCover (some .snowIce) = none ∧
    CriterionClassifier.classifyCover (some .clouds) = none ∧
    CriterionClassifier.classifyCover (some .water) = none ∧
    CriterionClassifier.classifyCover none = none := by
  decide

/-- C2: a cell of the aggregated raster is no-data exactly when at least
one of the three classified inputs is no-data there; equivalently, the
output is valid at a cell only if all three inputs are valid there. -/
theorem aggregate_nodata_propagation
    (cover slope hand : Raster SuitabilityBand) (fn : RoundingStrategy)
    (p : ℕ × ℕ) :
    SuitabilityAggregator.aggregate cover slope hand fn p = none ↔
      cover p = none ∨ slope p = none ∨ hand p = none := by
  unfold SuitabilityAggregator.aggregate SuitabilityAggregator.aggregateCell
  rcases hc : cover p with _ | x <;> rcases hs : slope p with _ | y <;>
    rcases hh : hand p with _ | z <;> simp

/-- Helper: per-cell aggregation is unchanged by swapping the first two
inputs. -/
theorem aggregateCell_swap_left (a b c : Option SuitabilityBand)
    (fn : RoundingStrategy) :
    SuitabilityAggregator.aggregateCell a b c fn =
      SuitabilityAggregator.aggregateCell b a c fn := by
  rcases a with _ | x <;> rcases b with _ | y <;> rcases c with _ | z <;>
    simp only [SuitabilityAggregator.aggregateCell]
  have h : (((x.val + y.val + z.val : ℤ) : ℚ)) = ((y.val + x.val + z.val : ℤ) : ℚ) := by
    push_cast
    ring
  rw [h]

/-- Helper: per-cell aggregation is unchanged by swapping the last two
inputs. -/
theorem aggregateCell_swap_right (a b c : Option SuitabilityBand)
    (fn : RoundingStrategy) :
    SuitabilityAggregator.aggregateCell a b c fn =
      SuitabilityAggregator.aggregateCell a c b fn := by
  rcases a with _ | x <;> rcases b with _ | y <;> rcases c with _ | z <;>
    simp only [SuitabilityAggregator.aggregateCell]
  have h : (((x.val + y.val + z.val : ℤ) : ℚ)) = ((x.val + z.val + y.val : ℤ) : ℚ) := by
    push_cast
    ring
  rw [h]

/-- C6: the aggregator is commutative in its three raster inputs — every
permutation of (cover, slope, hand) yields an identical output raster,
no-data cells included. -/
theorem aggregate_commutative
    (cover slope hand : Raster SuitabilityBand) (fn : RoundingStrategy) :
    SuitabilityAggregator.aggregate cover slope hand fn =
        SuitabilityAggregator.aggregate cover hand slope fn ∧
    SuitabilityAggregator.aggregate cover slope hand fn =
        SuitabilityAggregator.aggregate slope cover hand fn ∧
    SuitabilityAggregator.aggregate cover slope hand fn =
        SuitabilityAggregator.aggregate slope hand cover fn ∧
    SuitabilityAggregator.aggregate cover slope hand fn =
        SuitabilityAggregator.aggregate hand cover slope fn ∧
    SuitabilityAggregator.aggregate cover slope hand fn =
        SuitabilityAggregator.aggregate hand slope cover fn := by
  refine ⟨funext fun p => ?_, funext fun p => ?_, funext fun p => ?_,
    funext fun p => ?_, funext fun p => ?_⟩ <;>
    simp only [SuitabilityAggregator.aggregate]
  · exact aggregateCell_swap_right _ _ _ _
  · exact aggregateCell_swap_left _ _ _ _
  · exact (aggregateCell_swap_left _ _ _ _).trans
      (aggregateCell_swap_right _ _ _ _)
  · exact (aggregateCell_swap_right _ _ _ _).trans
      (aggregateCell_swap_left _ _ _ _)
  · exact ((aggregateCell_swap_right _ _ _ _).trans
      (aggregateCell_swap_left _ _ _ _)).trans
      (aggregateCell_swap_right _ _ _ _)

/-- Helper: every rounding strategy is the identity on integer values. -/
theorem applyRounding_intCast (fn : RoundingStrategy) (n : ℤ) :
    applyRounding fn ((n : ℤ) : ℚ) = n := by
  rcases fn with _ | _ | _
  · exact Int.floor_intCast n
  · exact Int.ceil_intCast n
  · show ⌊((n : ℤ) : ℚ) + 1 / 2⌋ = n
    rw [Int.floor_eq_iff]
    constructor <;> norm_num

/-- C5: on a cell where all three bands are valid the aggregator returns
the selected rounding of the arithmetic mean, clamped to {1,2,3}; the
result's numeric code is always in {1,2,3}; ceiling sends a mean of 5/2 to
3 while floor sends it to 2; a mean of exactly 3 yields High under every
strategy; and the default strategy is floor. -/
theorem aggregate_mean_rounding
    (a b c : SuitabilityBand) (fn : RoundingStrategy) :
    SuitabilityAggregator.aggregateCell (some a) (some b) (some c) fn =
      some (clampBand (applyRounding fn (((a.val + b.val + c.val : ℤ) : ℚ) / 3))) ∧
    ((clampBand (applyRounding fn (((a.val + b.val + c.val : ℤ) : ℚ) / 3))).val = 1 ∨
     (clampBand (applyRounding fn (((a.val + b.val + c.val : ℤ) : ℚ) / 3))).val = 2 ∨
     (clampBand (applyRounding fn (((a.val + b.val + c.val : ℤ) : ℚ) / 3))).val = 3) ∧
    applyRounding .ceiling (5 / 2) = 3 ∧
    applyRounding .floor (5 / 2) = 2 ∧
    SuitabilityAggregator.aggregateCell (some .high) (some .high) (some .high) fn =
      some .high ∧
    defaultRounding = .floor := by
  refine ⟨rfl, ?_, ?_, ?_, ?_, rfl⟩
  · rcases clampBand (applyRounding fn (((a.val + b.val + c.val : ℤ) : ℚ) / 3)) with _ | _ | _ <;>
      simp [SuitabilityBand.val]
  · show ⌈(5 / 2 : ℚ)⌉ = 3
    rw [Int.ceil_eq_iff]
    norm_num
  · show ⌊(5 / 2 : ℚ)⌋ = 2
    rw [Int.floor_eq_iff]
    norm_num
  · have hm : (((SuitabilityBand.high.val + SuitabilityBand.high.val +
        SuitabilityBand.high.val : ℤ) : ℚ)) / 3 = ((3 : ℤ) : ℚ) := by
      norm_num [SuitabilityBand.val]
    simp only [SuitabilityAggregator.aggregateCell, hm, applyRounding_intCast]
    decide

/-- C3: `needs_fetch` returns false exactly when a cache record exists
whose stored extent geometrically contains the whole requested AOI; with
no record it always returns true. -/
theorem needs_fetch_iff_not_covered (requested_aoi : Geometry)
    (cache_record : Option Geometry) :
    (CacheValidator.needs_fetch requested_aoi cache_record = false ↔
      ∃ extent, cache_record = some extent ∧ requested_aoi ⊆ extent) ∧
    CacheValidator.needs_fetch requested_aoi none = true := by
  refine ⟨?_, rfl⟩
  rcases cache_record with _ | extent
  · simp [CacheValidator.needs_fetch]
  · simp [CacheValidator.needs_fetch]

/-- C9: the geometry gate shrinks areas monotonically — clipping by
borders never exceeds the original AOI area, and subtracting protected
areas never exceeds the border-clipped area. -/
theorem reduce_area_monotone (cellAreaHa : ℚ) (aoi borders protectedAreas : Geometry)
    (hc : 0 ≤ cellAreaHa) :
    areaHa cellAreaHa (GeometryGate.clipToBorders aoi borders) ≤
      areaHa cellAreaHa aoi ∧
    areaHa cellAreaHa
        (GeometryGate.subtractProtected
          (GeometryGate.clipToBorders aoi borders) protectedAreas) ≤
      areaHa cellAreaHa (GeometryGate.clipToBorders aoi borders) := by
  unfold areaHa GeometryGate.clipToBorders GeometryGate.subtractProtected
  constructor
  · have h : (aoi ∩ borders).card ≤ aoi.card :=
      Finset.card_le_card Finset.inter_subset_left
    exact mul_le_mul_of_nonneg_right (by exact_mod_cast h) hc
  · have h : ((aoi ∩ borders) \ protectedAreas).card ≤ (aoi ∩ borders).card :=
      Finset.card_le_card Finset.sdiff_subset
    exact mul_le_mul_of_nonneg_right (by exact_mod_cast h) hc

/-- C9 witness: monotone shrinkage at a concrete AOI, border set and
protected set with one-hectare cells. -/
theorem reduce_area_monotone_witness :
    areaHa 1 (GeometryGate.clipToBorders {(0, 0), (0, 1)} {(0, 0)}) ≤
      areaHa 1 ({(0, 0), (0, 1)} : Geometry) ∧
    areaHa 1 (GeometryGate.subtractProtected
        (GeometryGate.clipToBorders {(0, 0), (0, 1)} {(0, 0)}) {(0, 0)}) ≤
      areaHa 1 (GeometryGate.clipToBorders {(0, 0), (0, 1)} {(0, 0)}) :=
  reduce_area_monotone 1 {(0, 0), (0, 1)} {(0, 0)} {(0, 0)} (by norm_num)

/-- C4: when the area remaining after border clipping and protected-area
subtraction is strictly below the minimum viable area, the pipeline stops
gracefully with the InsufficientArea outcome, which carries the statistics
gathered so far and no suitability raster. -/
theorem pipeline_insufficient_area (aoi borders protectedAreas : Geometry)
    (minAreaHa cellAreaHa : ℚ)
    (cover slope hand : Raster SuitabilityBand) (fn : RoundingStrategy)
    (h : areaHa cellAreaHa
        (GeometryGate.subtractProtected
          (GeometryGate.clipToBorders aoi borders) protectedAreas) < minAreaHa) :
    runPipeline aoi borders protectedAreas minAreaHa cellAreaHa
        cover slope hand fn =
      .insufficientArea
        (pipelineStats aoi borders protectedAreas minAreaHa cellAreaHa) := by
  unfold runPipeline
  simp only [if_pos h]

/-- C4 witness: a 50 Ha AOI inside the borders and outside every protected
area falls below the default 100 Ha threshold, so the pipeline halts with
InsufficientArea and a statistics report recording the 50 Ha shortfall. -/
theorem pipeline_insufficient_area_witness :
    runPipeline {(0, 0)} {(0, 0)} ∅ 100 50
        (fun _ => some .high) (fun _ => some .high) (fun _ => some .high)
        defaultRounding =
      .insufficientArea (pipelineStats {(0, 0)} {(0, 0)} ∅ 100 50) :=
  pipeline_insufficient_area {(0, 0)} {(0, 0)} ∅ 100 50
    (fun _ => some .high) (fun _ => some .high) (fun _ => some .high)
    defaultRounding (by
      have h1 : GeometryGate.clipToBorders ({(0, 0)} : Geometry) {(0, 0)} = {(0, 0)} := by
        simp [GeometryGate.clipToBorders]
      have h2 : GeometryGate.subtractProtected ({(0, 0)} : Geometry) ∅ = {(0, 0)} := by
        simp [GeometryGate.subtractProtected]
      rw [h1, h2]
      norm_num [areaHa])

/-- C10: the emitted raster encodes a no-data cell as the sentinel -9999
and a valid cell as its band value, so every cell value is -9999 or lies
in {1,2,3}, and testing against -9999 alone recovers the valid-cell
mask. -/
theorem encode_sentinel_disjoint (cell : Option SuitabilityBand) :
    (encodeSuitability cell = -9999 ∨ encodeSuitability cell = 1 ∨
      encodeSuitability cell = 2 ∨ encodeSuitability cell = 3) ∧
    (encodeSuitability cell = -9999 ↔ cell = none) := by
  rcases cell with _ | b
  · exact ⟨Or.inl rfl, by simp [encodeSuitability]⟩
  · rcases b with _ | _ | _ <;> exact ⟨by decide, by decide⟩

end LandAnalysis
